import Mathlib

/-!
# Verification of the Langmuir geometry module (`LngmrMod_Geom.py`)

Shallow embedding of the geometry/material-resolution core:

* `Shape` — closed sum over the source classes `Domain2D`, `Domain1D`,
  `Rectangle`, `Interval`, each carrying the fields its `__init__` stores.
* `Base` — the geometry aggregate (`name`, `dim`, `is_cyl`, `sequence`,
  `has_domain`, `mater_set`, `mater_dict`).
* `Base.add_domain`, `Base.add_shape`, `Base.get_mater` — translated from
  the source methods.  `add_shape` returns the new state together with the
  optional error string the Python method returns; `get_mater` returns
  `Option String`, where `none` models a Python exception raised during the
  scan (chained comparison of a 1D shape against a 2D point raises in
  numpy; no claim exercises that path).

Coordinates are rationals (`ℚ`); Python floats in the spec's examples are
read as the decimal rationals they denote.

The Python `set` is modelled as a duplicate-free insertion-ordered list
(`setAdd` only appends when absent, so membership and size agree with the
Python set); the Python `dict` as an association list where `dictUpdate`
replaces in place or appends, matching CPython's insertion-ordered dicts.
-/

/-- Sum of the source's shape classes.  `domain2D` stores `bl` and the
`domain` (width, height) pair; its `ur` is derived as `bl + domain`,
exactly the value `Domain2D.__init__` stores. -/
inductive Shape where
  | domain2D (bl : ℚ × ℚ) (domain : ℚ × ℚ)
  | domain1D (domain : ℚ × ℚ)
  | rectangle (mater : String) (bl : ℚ × ℚ) (ur : ℚ × ℚ)
  | interval (mater : String) (lr : ℚ × ℚ)
deriving DecidableEq

/-- `self.mater`: the domains hard-code `'Plasma'` in their `__init__`. -/
def Shape.mater : Shape → String
  | .domain2D _ _ => "Plasma"
  | .domain1D _ => "Plasma"
  | .rectangle m _ _ => m
  | .interval m _ => m

/-- `self.dim` as set by each `__init__`. -/
def Shape.dim : Shape → Nat
  | .domain2D _ _ => 2
  | .domain1D _ => 1
  | .rectangle _ _ _ => 2
  | .interval _ _ => 1

/-- Upper-right corner: stored by `Rectangle.__init__`, and computed as
`self.bl + self.domain` by `Domain2D.__init__`. -/
def Shape.ur : Shape → Option (ℚ × ℚ)
  | .domain2D bl d => some (bl.1 + d.1, bl.2 + d.2)
  | .rectangle _ _ ur => some ur
  | _ => none

/-- `self.width = self.ur[0] - self.bl[0]` (Rectangle) resp. the first
component of `domain` (Domain2D). -/
def Shape.width : Shape → Option ℚ
  | .domain2D _ d => some d.1
  | .rectangle _ bl ur => some (ur.1 - bl.1)
  | _ => none

/-- `self.height = self.ur[1] - self.bl[1]` (Rectangle) resp. the second
component of `domain` (Domain2D). -/
def Shape.height : Shape → Option ℚ
  | .domain2D _ d => some d.2
  | .rectangle _ bl ur => some (ur.2 - bl.2)
  | _ => none

/-- `Interval.__init__`: `self.length = self.lr[1] - self.lr[0]`. -/
def Shape.length : Shape → Option ℚ
  | .interval _ lr => some (lr.2 - lr.1)
  | _ => none

/-- `__contains__` applied to a 2D position.  For `Rectangle` and
`Domain2D` the source computes `all(self.bl <= posn) and all(posn <= self.ur)`
(numpy component-wise, boundary-inclusive).  Feeding a 2D position to the
1D shapes' chained comparison raises in numpy, modelled as `none`. -/
def Shape.contains : Shape → ℚ × ℚ → Option Bool
  | .domain2D bl d, p =>
      some ((decide (bl.1 ≤ p.1) && decide (bl.2 ≤ p.2)) &&
            (decide (p.1 ≤ bl.1 + d.1) && decide (p.2 ≤ bl.2 + d.2)))
  | .rectangle _ bl ur, p =>
      some ((decide (bl.1 ≤ p.1) && decide (bl.2 ≤ p.2)) &&
            (decide (p.1 ≤ ur.1) && decide (p.2 ≤ ur.2)))
  | .domain1D _, _ => none
  | .interval _ _, _ => none

/-- `__contains__` applied to a scalar position: the 1D shapes' chained
comparison `lo <= posn <= hi`, boundary-inclusive.  The 2D shapes' numpy
`all(...)` on a scalar is not exercised by any claim; modelled as `none`. -/
def Shape.containsQ : Shape → ℚ → Option Bool
  | .domain1D d, p => some (decide (d.1 ≤ p) && decide (p ≤ d.2))
  | .interval _ lr, p => some (decide (lr.1 ≤ p) && decide (p ≤ lr.2))
  | .domain2D _ _, _ => none
  | .rectangle _ _ _, _ => none

/-- `Rectangle.__init__`: stores material and the two corners; no
validation of any kind is performed. -/
def Rectangle.make (mater : String) (bottom_left up_right : ℚ × ℚ) : Shape :=
  Shape.rectangle mater bottom_left up_right

/-- `Interval.__init__`: stores material and `lr`; no validation. -/
def Interval.make (mater : String) (lr : ℚ × ℚ) : Shape :=
  Shape.interval mater lr

/-- `Domain2D.__init__`: label `'A'`, material `'Plasma'`, stores `bl` and
`domain`; no validation. -/
def Domain2D.make (bl domain : ℚ × ℚ) : Shape :=
  Shape.domain2D bl domain

/-- Python `set.add` on the list model: append only when absent, so that
membership and `len` agree with the Python set. -/
def setAdd (s : List String) (m : String) : List String :=
  if m ∈ s then s else s ++ [m]

/-- Python `dict.update({k: v})`: replace the value in place when the key
is present, else append the pair (CPython dicts are insertion-ordered). -/
def dictUpdate (d : List (String × Nat)) (k : String) (v : Nat) :
    List (String × Nat) :=
  if d.any (fun kv => kv.1 = k) then
    d.map (fun kv => if kv.1 = k then (k, v) else kv)
  else
    d ++ [(k, v)]

/-- Python `dict.get(k)`. -/
def dictGet (d : List (String × Nat)) (k : String) : Option Nat :=
  (d.find? (fun kv => kv.1 = k)).map (fun kv => kv.2)

/-- The geometry aggregate, class `Base`. -/
structure Base where
  name : String
  dim : Nat
  is_cyl : Bool
  sequence : List Shape
  has_domain : Bool
  mater_set : List String
  mater_dict : List (String × Nat)
deriving DecidableEq

/-- `Base.__init__`: `dim` is hard-coded to 2, everything else empty. -/
def Base.init (name : String) (is_cyl : Bool) : Base :=
  { name := name
    dim := 2
    is_cyl := is_cyl
    sequence := []
    has_domain := false
    mater_set := []
    mater_dict := [] }

/-- `Base.add_domain`: unconditionally appends the domain, adds its
material to the set, maps it to index 0, and sets `has_domain` — the
source performs no check whether a domain already exists. -/
def Base.add_domain (g : Base) (domain : Shape) : Base :=
  { g with
    sequence := g.sequence ++ [domain]
    mater_set := setAdd g.mater_set domain.mater
    mater_dict := dictUpdate g.mater_dict domain.mater 0
    has_domain := true }

/-- The exact error string `Base.add_shape` returns when no domain exists
(typo included). -/
def DomainNotCreatedError : String :=
  "Error: Domian is not created yet." ++
  "\nRun self.create_domain() before self.add_shape()"

/-- `Base.add_shape`: when `has_domain`, append the shape and register a
previously unseen material with index `len(mater_set) - 1` (computed after
the `set.add`); when the material is already present, do nothing further.
Without a domain the method mutates nothing and returns the error string.
The source performs no dimension check. -/
def Base.add_shape (g : Base) (shape : Shape) : Base × Option String :=
  if g.has_domain then
    if shape.mater ∈ g.mater_set then
      ({ g with sequence := g.sequence ++ [shape] }, none)
    else
      let ms := setAdd g.mater_set shape.mater
      ({ g with
          sequence := g.sequence ++ [shape]
          mater_set := ms
          mater_dict := dictUpdate g.mater_dict shape.mater (ms.length - 1) },
       none)
  else
    (g, some DomainNotCreatedError)

/-- The loop body of `Base.get_mater`: fold over the sequence starting
from the accumulator, overwriting it with `shape.mater` whenever the
position is contained, never breaking early.  A raising containment check
(`none`) aborts the whole scan. -/
def materScan (posn : ℚ × ℚ) : String → List Shape → Option String
  | acc, [] => some acc
  | acc, s :: rest =>
    match s.contains posn with
    | none => none
    | some b => materScan posn (if b then s.mater else acc) rest

/-- `Base.get_mater`: `mater = 'Plasma'`, then the full scan. -/
def Base.get_mater (g : Base) (posn : ℚ × ℚ) : Option String :=
  materScan posn "Plasma" g.sequence

/-! ## Concrete geometries used by the examples of the claims -/

/-- Domain `(0,0)-(10,10)`, then `Rectangle("Air",(0,0),(10,10))`, then
`Rectangle("Coil",(2,2),(4,4))` — the last-writer-wins example. -/
def geomAirCoil : Base :=
  (((((Base.init "g" false).add_domain
        (Domain2D.make (0, 0) (10, 10))).add_shape
        (Rectangle.make "Air" (0, 0) (10, 10))).1).add_shape
        (Rectangle.make "Coil" (2, 2) (4, 4))).1

/-- Domain `(0,0)-(10,10)` with no overlays. -/
def geomDom10 : Base :=
  (Base.init "g" false).add_domain (Domain2D.make (0, 0) (10, 10))

/-- Registration example, step 0: domain registers `"Plasma"`. -/
def geomReg0 : Base :=
  (Base.init "g" false).add_domain (Domain2D.make (0, 0) (1, 1))

/-- Registration example, step 1: first `"Metal"` shape. -/
def geomReg1 : Base :=
  (geomReg0.add_shape (Rectangle.make "Metal" (0, 0) (1, 1))).1

/-- Registration example, step 2: `"Quartz"` shape. -/
def geomReg2 : Base :=
  (geomReg1.add_shape (Rectangle.make "Quartz" (0, 0) (1, 1))).1

/-- Registration example, step 3: second `"Metal"` shape. -/
def geomReg3 : Base :=
  (geomReg2.add_shape (Rectangle.make "Metal" (0, 0) (1, 1))).1

/-! ## Scan lemmas -/

/-- Scanning an appended list chains through the intermediate accumulator. -/
theorem materScan_append (p : ℚ × ℚ) (acc : String) (l1 l2 : List Shape) :
    materScan p acc (l1 ++ l2) =
      (materScan p acc l1).bind (fun a => materScan p a l2) := by
  induction l1 generalizing acc with
  | nil => simp [materScan]
  | cons s rest ih =>
    simp only [List.cons_append, materScan]
    cases s.contains p with
    | none => rfl
    | some b => exact ih _

/-- Shapes that do not contain the position leave the accumulator alone. -/
theorem materScan_all_false (p : ℚ × ℚ) (acc : String) (l : List Shape)
    (h : ∀ s ∈ l, s.contains p = some false) :
    materScan p acc l = some acc := by
  induction l with
  | nil => rfl
  | cons s rest ih =>
    have hs := h s (List.mem_cons_self s rest)
    simp only [materScan, hs]
    exact ih (fun t ht => h t (List.mem_cons_of_mem s ht))

/-- When every containment check is defined, the scan does not abort. -/
theorem materScan_isSome (p : ℚ × ℚ) (acc : String) (l : List Shape)
    (h : ∀ s ∈ l, (s.contains p).isSome = true) :
    (materScan p acc l).isSome = true := by
  induction l generalizing acc with
  | nil => rfl
  | cons s rest ih =>
    have hs := h s (List.mem_cons_self s rest)
    simp only [materScan]
    cases hc : s.contains p with
    | none => rw [hc] at hs; simp at hs
    | some b => exact ih _ (fun t ht => h t (List.mem_cons_of_mem s ht))

/-- Looking up a key right after `dictUpdate` returns the written value:
present keys are overwritten in place, absent keys are appended. -/
theorem dictGet_dictUpdate_self (d : List (String × Nat)) (k : String) (v : Nat) :
    dictGet (dictUpdate d k v) k = some v := by
  unfold dictUpdate
  by_cases h : d.any (fun kv => kv.1 = k)
  · rw [if_pos h]
    rw [List.any_eq_true] at h
    obtain ⟨kv0, hkv0, hk0⟩ := h
    induction d with
    | nil => cases hkv0
    | cons hd tl ih =>
      by_cases hhd : hd.1 = k
      · simp [dictGet, List.find?, hhd]
      · rcases List.mem_cons.mp hkv0 with heq | hmem
        · subst heq; simp at hk0; exact absurd hk0 hhd
        · simpa [dictGet, List.find?, hhd] using ih hmem
  · rw [if_neg h]
    rw [List.any_eq_true] at h
    push_neg at h
    induction d with
    | nil => simp [dictGet]
    | cons hd tl ih =>
      have hhd : ¬ hd.1 = k := by
        have := h hd (List.mem_cons_self hd tl)
        simpa using this
      have htl : ∀ x ∈ tl, ¬ (fun kv => decide (kv.1 = k)) x = true :=
        fun x hx => h x (List.mem_cons_of_mem hd hx)
      simpa [dictGet, List.find?, hhd] using ih htl

/-- A sequence of `GeomCall`s is the build script of a geometry: the
Python driver scripts are exactly such sequences of `add_domain` /
`add_shape` calls (whose returned error strings they discard). -/
inductive GeomCall where
  | addDomain (d : Shape)
  | addShape (s : Shape)
deriving DecidableEq

/-- Replay a build script on a starting geometry. -/
def runCalls : Base → List GeomCall → Base
  | g, [] => g
  | g, .addDomain d :: rest => runCalls (g.add_domain d) rest
  | g, .addShape s :: rest => runCalls (g.add_shape s).1 rest

/-! ## Claim theorems -/

/-- C1: `get_mater` returns the material of the last shape in the
insertion-ordered sequence that contains the point (the scan never breaks
early, so a later containing shape always overrides earlier ones); in
particular, with overlays `Rectangle("Air",(0,0),(10,10))` added before
`Rectangle("Coil",(2,2),(4,4))`, `material_at((3,3)) = "Coil"` and
`material_at((1,1)) = "Air"`. -/
theorem C1_last_overlay_wins :
    (∀ (g : Base) (p : ℚ × ℚ) (pre post : List Shape) (s : Shape),
        g.sequence = pre ++ s :: post →
        (∀ t ∈ pre, (t.contains p).isSome = true) →
        s.contains p = some true →
        (∀ t ∈ post, t.contains p = some false) →
        g.get_mater p = some s.mater) ∧
    geomAirCoil.get_mater (3, 3) = some "Coil" ∧
    geomAirCoil.get_mater (1, 1) = some "Air" := by
  refine ⟨?_, ?_, ?_⟩
  case refine_2 =>
    norm_num [geomAirCoil, Base.init, Base.add_domain, Base.add_shape,
      Domain2D.make, Rectangle.make, Shape.mater, setAdd, dictUpdate,
      Base.get_mater, materScan, Shape.contains]
  case refine_3 =>
    norm_num [geomAirCoil, Base.init, Base.add_domain, Base.add_shape,
      Domain2D.make, Rectangle.make, Shape.mater, setAdd, dictUpdate,
      Base.get_mater, materScan, Shape.contains]
  intro g p pre post s hseq hpre hs hpost
  unfold Base.get_mater
  rw [hseq, materScan_append]
  obtain ⟨acc, hacc⟩ :=
    Option.isSome_iff_exists.mp (materScan_isSome p "Plasma" pre hpre)
  rw [hacc]
  simp only [Option.bind_some, materScan, hs, if_pos rfl]
  exact materScan_all_false p s.mater post hpost

/-- C1 witness: the general last-writer-wins statement applied to the
Air/Coil geometry at position `(3,3)`. -/
theorem C1_last_overlay_wins_witness : geomAirCoil.get_mater (3, 3) = some "Coil" :=
  C1_last_overlay_wins.1 geomAirCoil (3, 3)
    [Shape.domain2D (0, 0) (10, 10), Shape.rectangle "Air" (0, 0) (10, 10)] []
    (Shape.rectangle "Coil" (2, 2) (4, 4))
    (by decide) (by decide) (by decide) (by decide)

/-- C2: `get_mater` is total over a domain-headed sequence — a point
contained in no overlay resolves to the ambient default `"Plasma"`, even
outside the domain's own extent; concretely, for the overlay-free domain
`(0,0)-(10,10)`, both `(5,5)` and `(20,20)` resolve to `"Plasma"`. -/
theorem C2_ambient_default :
    (∀ (bl d : ℚ × ℚ) (overlays : List Shape) (g : Base) (p : ℚ × ℚ),
        g.sequence = Domain2D.make bl d :: overlays →
        (∀ s ∈ overlays, s.contains p = some false) →
        g.get_mater p = some "Plasma") ∧
    geomDom10.get_mater (5, 5) = some "Plasma" ∧
    geomDom10.get_mater (20, 20) = some "Plasma" := by
  refine ⟨?_, ?_, ?_⟩
  case refine_2 =>
    norm_num [geomDom10, Base.init, Base.add_domain, Domain2D.make,
      Shape.mater, setAdd, dictUpdate, Base.get_mater, materScan,
      Shape.contains]
  case refine_3 =>
    norm_num [geomDom10, Base.init, Base.add_domain, Domain2D.make,
      Shape.mater, setAdd, dictUpdate, Base.get_mater, materScan,
      Shape.contains]
  intro bl d overlays g p hseq hov
  unfold Base.get_mater
  rw [hseq]
  simp only [Domain2D.make, materScan, Shape.contains, Shape.mater]
  have hres := materScan_all_false p "Plasma" overlays hov
  split <;> exact hres

/-- C2 witness: the general ambient-default statement applied to the
overlay-free `(0,0)-(10,10)` domain at the out-of-domain point `(20,20)`. -/
theorem C2_ambient_default_witness : geomDom10.get_mater (20, 20) = some "Plasma" :=
  C2_ambient_default.1 (0, 0) (10, 10) [] geomDom10 (20, 20) (by decide)
    (by intro s hs; exact absurd hs (List.not_mem_nil s))

/-- C3: Rectangle containment is boundary-inclusive and component-wise
(`bl ≤ p ≤ ur`), Interval containment is the symmetric boundary-inclusive
`low ≤ p ≤ high`; on the rectangle `bl=(0,0)`, `ur=(1,1)`, the corners,
the centre `(1/2,1/2)` are contained and `(1.0001, 0.5)` is not. -/
theorem C3_boundary_inclusive :
    (∀ (m : String) (bl ur p : ℚ × ℚ),
        (Shape.rectangle m bl ur).contains p =
          some (decide (bl.1 ≤ p.1 ∧ bl.2 ≤ p.2 ∧ p.1 ≤ ur.1 ∧ p.2 ≤ ur.2))) ∧
    (∀ (m : String) (lr : ℚ × ℚ) (p : ℚ),
        (Shape.interval m lr).containsQ p =
          some (decide (lr.1 ≤ p ∧ p ≤ lr.2))) ∧
    (Rectangle.make "M" (0, 0) (1, 1)).contains (0, 0) = some true ∧
    (Rectangle.make "M" (0, 0) (1, 1)).contains (1, 1) = some true ∧
    (Rectangle.make "M" (0, 0) (1, 1)).contains (0, 1) = some true ∧
    (Rectangle.make "M" (0, 0) (1, 1)).contains (1, 0) = some true ∧
    (Rectangle.make "M" (0, 0) (1, 1)).contains (mkRat 1 2, mkRat 1 2) = some true ∧
    (Rectangle.make "M" (0, 0) (1, 1)).contains (mkRat 10001 10000, mkRat 1 2) =
      some false := by
  refine ⟨?_, ?_, by decide, by decide, by decide, by decide, by decide, by decide⟩
  · intro m bl ur p
    simp only [Shape.contains, Bool.decide_and, Option.some.injEq]
    simp [Bool.and_assoc]
  · intro m lr p
    simp only [Shape.containsQ, Bool.decide_and]

/-- C10: on a fresh `Base` (empty sequence, no domain), `get_mater`
returns `"Plasma"` for every position — the result is initialised to the
literal ambient default, not read from the sequence. -/
theorem C10_fresh_geometry_plasma :
    ∀ (name : String) (is_cyl : Bool) (p : ℚ × ℚ),
      (Base.init name is_cyl).get_mater p = some "Plasma" := by
  intro name is_cyl p
  rfl

/-- C4: material registration is stable and first-seen indexed — a
previously unseen material receives index `len(mater_set) - 1` computed
after the set insertion (so the Nth distinct material gets index N-1), a
material already present causes no registry mutation, and the run
Plasma (domain), Metal, Quartz, Metal yields indices `[0, 1, 2, 1]` with
the domain's material at index 0. -/
theorem C4_registry_stable :
    (∀ (g : Base) (s : Shape), g.has_domain = true → s.mater ∉ g.mater_set →
        dictGet (g.add_shape s).1.mater_dict s.mater = some g.mater_set.length ∧
        (g.add_shape s).1.mater_set.length = g.mater_set.length + 1) ∧
    (∀ (g : Base) (s : Shape), g.has_domain = true → s.mater ∈ g.mater_set →
        (g.add_shape s).1.mater_set = g.mater_set ∧
        (g.add_shape s).1.mater_dict = g.mater_dict) ∧
    dictGet geomReg1.mater_dict "Plasma" = some 0 ∧
    dictGet geomReg1.mater_dict "Metal" = some 1 ∧
    dictGet geomReg2.mater_dict "Quartz" = some 2 ∧
    dictGet geomReg3.mater_dict "Metal" = some 1 ∧
    geomReg3.mater_set = geomReg2.mater_set ∧
    geomReg3.mater_dict = geomReg2.mater_dict := by
  refine ⟨?_, ?_, by decide, by decide, by decide, by decide, by decide, by decide⟩
  · intro g s hdom hmem
    have hset : setAdd g.mater_set s.mater = g.mater_set ++ [s.mater] := by
      simp [setAdd, hmem]
    simp only [Base.add_shape, hdom, if_true, hmem, if_false, hset]
    constructor
    · simpa [List.length_append] using
        dictGet_dictUpdate_self g.mater_dict s.mater
          ((g.mater_set ++ [s.mater]).length - 1)
    · simp
  · intro g s hdom hmem
    simp [Base.add_shape, hdom, hmem]

/-- C4 witness: the first-seen rule applied to registering `"Metal"` on
the geometry that so far only knows `"Plasma"`. -/
theorem C4_registry_stable_witness :
    dictGet ((geomReg0.add_shape (Rectangle.make "Metal" (0, 0) (1, 1))).1).mater_dict
      "Metal" = some 1 :=
  (C4_registry_stable.1 geomReg0 (Rectangle.make "Metal" (0, 0) (1, 1))
    (by decide) (by decide)).1

/-- C5: `add_shape` on a geometry without a domain fails with the
domain-not-created error and mutates nothing; on a fresh geometry the
sequence and both registry components are empty before and after. -/
theorem C5_domain_gate :
    (∀ (g : Base) (s : Shape), g.has_domain = false →
        (g.add_shape s).2 = some DomainNotCreatedError ∧ (g.add_shape s).1 = g) ∧
    (∀ (name : String) (c : Bool) (s : Shape),
        ((Base.init name c).add_shape s).2 = some DomainNotCreatedError ∧
        ((Base.init name c).add_shape s).1 = Base.init name c ∧
        (Base.init name c).sequence = [] ∧
        (Base.init name c).mater_set = [] ∧
        (Base.init name c).mater_dict = []) := by
  constructor
  · intro g s h
    simp [Base.add_shape, h]
  · intro name c s
    exact ⟨rfl, rfl, rfl, rfl, rfl⟩

/-- C5 witness: the gate applied to a fresh geometry and a metal shape. -/
theorem C5_domain_gate_witness :
    ((Base.init "g" false).add_shape (Rectangle.make "Metal" (0, 0) (1, 1))).2 =
      some DomainNotCreatedError :=
  (C5_domain_gate.1 (Base.init "g" false) (Rectangle.make "Metal" (0, 0) (1, 1))
    rfl).1

/-- C6 counterexample: a second `add_domain` on a geometry that already
has a domain does not fail — the source has no check at all — and it
mutates the geometry: the sequence grows to two entries (the second
domain becomes an overlay). -/
theorem C6_second_domain_cex :
    geomDom10.has_domain = true ∧
    geomDom10.sequence.length = 1 ∧
    (geomDom10.add_domain (Domain2D.make (0, 0) (10, 10))).sequence.length = 2 ∧
    (geomDom10.add_domain (Domain2D.make (0, 0) (10, 10))).sequence =
      [Domain2D.make (0, 0) (10, 10), Domain2D.make (0, 0) (10, 10)] := by
  exact ⟨rfl, rfl, rfl, rfl⟩

/-- C6 amended: `add_domain` on a geometry whose `has_domain` is already
true raises no error and performs no check; it appends the new domain to
the sequence (the original prefix, and in particular the original domain
at index 0, is preserved), maps the new domain's material to registry
index 0, and leaves `has_domain` true. -/
theorem C6_no_reinstall_check :
    ∀ (g : Base) (d : Shape), g.has_domain = true →
      (g.add_domain d).sequence = g.sequence ++ [d] ∧
      (g.add_domain d).has_domain = true ∧
      (g.add_domain d).mater_dict = dictUpdate g.mater_dict d.mater 0 ∧
      (g.add_domain d).sequence.take g.sequence.length = g.sequence := by
  intro g d _
  refine ⟨rfl, rfl, rfl, ?_⟩
  show (g.sequence ++ [d]).take g.sequence.length = g.sequence
  exact List.take_left g.sequence [d]

/-- C6 witness: re-adding the same domain to the one-domain geometry
appends it. -/
theorem C6_no_reinstall_check_witness :
    (geomDom10.add_domain (Domain2D.make (0, 0) (10, 10))).sequence =
      geomDom10.sequence ++ [Domain2D.make (0, 0) (10, 10)] :=
  (C6_no_reinstall_check geomDom10 (Domain2D.make (0, 0) (10, 10)) rfl).1

/-- C7 counterexample: adding the 1-dimensional `Interval("Metal",(0,1))`
to the 2-dimensional geometry succeeds — no error is returned and the
shape is appended — although its dimension disagrees with the
geometry's. -/
theorem C7_dimension_cex :
    (Interval.make "Metal" (0, 1)).dim = 1 ∧
    geomDom10.dim = 2 ∧
    (geomDom10.add_shape (Interval.make "Metal" (0, 1))).2 = none ∧
    (geomDom10.add_shape (Interval.make "Metal" (0, 1))).1.sequence =
      [Domain2D.make (0, 0) (10, 10), Interval.make "Metal" (0, 1)] := by
  refine ⟨rfl, rfl, ?_, ?_⟩ <;> decide

/-- C7 amended: `add_shape` performs no dimension check — once a domain
exists, a shape whose dimension differs from the geometry's is appended
to the sequence like any other and no error is returned. -/
theorem C7_no_dimension_check :
    ∀ (g : Base) (s : Shape), g.has_domain = true → s.dim ≠ g.dim →
      (g.add_shape s).2 = none ∧ (g.add_shape s).1.sequence = g.sequence ++ [s] := by
  intro g s hdom _
  by_cases hm : s.mater ∈ g.mater_set <;> simp [Base.add_shape, hdom, hm]

/-- C7 witness: the no-check behaviour applied to the 1D interval added
to the 2D geometry. -/
theorem C7_no_dimension_check_witness :
    (geomDom10.add_shape (Interval.make "Metal" (0, 1))).2 = none :=
  (C7_no_dimension_check geomDom10 (Interval.make "Metal" (0, 1)) rfl
    (by decide)).1

/-- C8 counterexample: constructing an `Interval` with `low > high` (and
a `Rectangle` with reversed corners) raises no error — the constructors
perform no validation and hand back a shape with negative extent. -/
theorem C8_invalid_extent_cex :
    (Interval.make "Metal" (1, 0)).length = some (-1) ∧
    (Rectangle.make "Metal" (1, 1) (0, 0)).width = some (-1) ∧
    (Rectangle.make "Metal" (1, 1) (0, 0)).height = some (-1) := by
  norm_num [Interval.make, Rectangle.make, Shape.length, Shape.width, Shape.height]

/-- C8 amended: shape construction never fails — there is no
`InvalidGeometryError` in the source.  An `Interval` with `low > high`,
or a `Rectangle` whose `bottom_left` is not component-wise `≤`
`top_right` (either coordinate reversed), is built successfully,
carrying its material and its signed length (resp. width, height), and
its containment predicate is everywhere false; zero-extent shapes are
likewise built successfully and contain their boundary point. -/
theorem C8_constructors_total :
    (∀ (m : String) (lr : ℚ × ℚ),
        (Interval.make m lr).mater = m ∧
        (Interval.make m lr).length = some (lr.2 - lr.1) ∧
        (lr.2 < lr.1 → ∀ p : ℚ, (Interval.make m lr).containsQ p = some false)) ∧
    (∀ (m : String) (bl ur : ℚ × ℚ),
        (Rectangle.make m bl ur).mater = m ∧
        (Rectangle.make m bl ur).width = some (ur.1 - bl.1) ∧
        (Rectangle.make m bl ur).height = some (ur.2 - bl.2) ∧
        (¬ (bl.1 ≤ ur.1 ∧ bl.2 ≤ ur.2) →
          ∀ p : ℚ × ℚ, (Rectangle.make m bl ur).contains p = some false)) ∧
    (∀ (m : String) (a : ℚ), (Interval.make m (a, a)).containsQ a = some true) ∧
    (∀ (m : String) (q : ℚ × ℚ), (Rectangle.make m q q).contains q = some true) := by
  refine ⟨?_, ?_, ?_, ?_⟩
  · intro m lr
    refine ⟨rfl, rfl, ?_⟩
    intro hlt p
    simp only [Interval.make, Shape.containsQ, Option.some.injEq]
    rcases le_or_lt lr.1 p with h1 | h1
    · have h2 : ¬ (p ≤ lr.2) := fun h => not_le.mpr hlt (h1.trans h)
      simp [h2]
    · have h2 : ¬ (lr.1 ≤ p) := not_le.mpr h1
      simp [h2]
  · intro m bl ur
    refine ⟨rfl, rfl, rfl, ?_⟩
    intro hrev p
    simp only [Rectangle.make, Shape.contains, Option.some.injEq]
    rcases not_and_or.mp hrev with hx | hx
    · rcases le_or_lt bl.1 p.1 with h1 | h1
      · have h2 : ¬ (p.1 ≤ ur.1) := fun h => hx (h1.trans h)
        simp [h2]
      · have h2 : ¬ (bl.1 ≤ p.1) := not_le.mpr h1
        simp [h2]
    · rcases le_or_lt bl.2 p.2 with h1 | h1
      · have h2 : ¬ (p.2 ≤ ur.2) := fun h => hx (h1.trans h)
        simp [h2]
      · have h2 : ¬ (bl.2 ≤ p.2) := not_le.mpr h1
        simp [h2]
  · intro m a
    simp [Interval.make, Shape.containsQ]
  · intro m q
    simp [Rectangle.make, Shape.contains]

/-- C8 witness: the y-reversed rectangle `bl=(0,1)`, `ur=(1,0)` contains
nothing, applied at its centre `(1/2, 1/2)`; and the reversed interval
`(1, 0)` contains nothing, applied at position 5. -/
theorem C8_constructors_total_witness :
    (Rectangle.make "Metal" (0, 1) (1, 0)).contains (mkRat 1 2, mkRat 1 2) =
      some false ∧
    (Interval.make "Metal" (1, 0)).containsQ 5 = some false :=
  ⟨(C8_constructors_total.2.1 "Metal" (0, 1) (1, 0)).2.2.2 (by decide)
      (mkRat 1 2, mkRat 1 2),
   (C8_constructors_total.1 "Metal" (1, 0)).2.2 (by decide) 5⟩

/-- C9: `material_at` is deterministic — two geometries produced by
replaying the identical build script agree on `get_mater` at every
position and have identical sequences and registries; the embedded
`get_mater` is a pure function of the geometry and the position (the
source method only reads `self.sequence`), so repeated queries on an
unchanged geometry return the same value and the state is untouched. -/
theorem C9_build_deterministic :
    ∀ (calls : List GeomCall) (name : String) (c : Bool) (g1 g2 : Base)
      (p : ℚ × ℚ),
      g1 = runCalls (Base.init name c) calls →
      g2 = runCalls (Base.init name c) calls →
      g1.get_mater p = g2.get_mater p ∧ g1.sequence = g2.sequence ∧
      g1.mater_set = g2.mater_set ∧ g1.mater_dict = g2.mater_dict := by
  intro calls name c g1 g2 p h1 h2
  subst h1
  subst h2
  exact ⟨rfl, rfl, rfl, rfl⟩

/-- C9 witness: determinism applied to the one-call build script that
installs a unit domain. -/
theorem C9_build_deterministic_witness :
    (runCalls (Base.init "g" false)
        [GeomCall.addDomain (Domain2D.make (0, 0) (1, 1))]).get_mater (0, 0) =
    (runCalls (Base.init "g" false)
        [GeomCall.addDomain (Domain2D.make (0, 0) (1, 1))]).get_mater (0, 0) :=
  (C9_build_deterministic [GeomCall.addDomain (Domain2D.make (0, 0) (1, 1))]
    "g" false _ _ (0, 0) rfl rfl).1
